import Mathlib

/-!
# voice-ui: the transcription webhook (`src/main.go`)

A shallow embedding of package `voice`: the HTTP handler `handler`, the two
helpers `fetchAudio` and `fetchTranscription` behind `transcribe`, and the
parts of the Go standard library they call (`http.ResponseWriter`,
`http.Error`, `fmt.Errorf`, `base64.StdEncoding`).

The outside world (the telephony media host answering the audio GET, the
speech service answering the transcription POST, `json.Marshal`, the process
environment) is a value of type `World`; every outbound HTTP call the code
issues is recorded, in order, in a list of `Call`s, and every line handed to
the App Engine logger in a list of `LogEntry`s.
-/

namespace Voice

/-! ## Data model -/

/-- A Go `byte` (`uint8`). -/
abbrev Byte := Fin 256

/-- Go `url.Values`: form keys with their values, in the order the map is
iterated. -/
abbrev Values := List (String × List String)

/-- The part of `*http.Request` the handler reads: the parsed form (URL query
and body) and the parsed body parameters. -/
structure Request where
  Form : Values
  PostForm : Values

/-- The method `r.FormValue(key)`: the first value for `key` in the parsed form, or the
empty string when there is none. -/
def Request.FormValue (r : Request) (key : String) : String :=
  match r.Form.lookup key with
  | some (v :: _) => v
  | _ => ""

/-- The state of an `http.ResponseWriter`: the header map, the status line once
it has been written, and the body written so far. -/
structure ResponseWriter where
  header : List (String × String)
  status : Option Nat
  body : String
deriving DecidableEq, Repr

/-- A fresh response writer: no header, status line not yet written. -/
def ResponseWriter.new : ResponseWriter :=
  { header := [], status := none, body := "" }

/-- The call `w.Header().Set(key, value)`: replaces whatever `key` held. The keys used by
this program are already in canonical MIME form. -/
def ResponseWriter.SetHeader (w : ResponseWriter) (key value : String) : ResponseWriter :=
  { w with header := (key, value) :: w.header.filter (fun kv => kv.1 != key) }

/-- The call `w.Header().Get(key)`. -/
def ResponseWriter.GetHeader (w : ResponseWriter) (key : String) : String :=
  (w.header.lookup key).getD ""

/-- The method `w.WriteHeader(code)`: writes the status line; a second call is ignored. -/
def ResponseWriter.WriteHeader (w : ResponseWriter) (code : Nat) : ResponseWriter :=
  match w.status with
  | none => { w with status := some code }
  | some _ => w

/-- The method `w.Write(p)`: writes the status line with `http.StatusOK` if it has not been
written yet, then appends to the body. -/
def ResponseWriter.Write (w : ResponseWriter) (p : String) : ResponseWriter :=
  let w1 := w.WriteHeader 200
  { w1 with body := w1.body ++ p }

/-- The call `fmt.Fprint(w, s)` for a single string operand. -/
def Fprint (w : ResponseWriter) (s : String) : ResponseWriter :=
  w.Write s

/-- The call `fmt.Fprintln(w, s)` for a single string operand. -/
def Fprintln (w : ResponseWriter) (s : String) : ResponseWriter :=
  w.Write (s ++ "\n")

/-- The constant `http.StatusOK`. -/
def StatusOK : Nat := 200

/-- The constant `http.StatusInternalServerError`. -/
def StatusInternalServerError : Nat := 500

/-- The function `http.Error(w, error, code)` of `net/http`: sets the content type to plain
text, forbids sniffing, writes the status line and then the message followed by
a newline. -/
def httpError (w : ResponseWriter) (error : String) (code : Nat) : ResponseWriter :=
  let w1 := w.SetHeader "Content-Type" "text/plain; charset=utf-8"
  let w2 := w1.SetHeader "X-Content-Type-Options" "nosniff"
  let w3 := w2.WriteHeader code
  Fprintln w3 error

/-! ## The TwiML constants -/

/-- The TwiML document that asks for the password and records the answer. -/
def greeting : String :=
  "<?xml version=\"1.0\" encoding=\"UTF-8\"?>\n\t<Response>\n\t\t<Say>Hello, human. What is the password?</Say>\n\t\t<Record timeout=\"5\" />\n\t</Response>"

/-- The TwiML document that rejects the spoken password. -/
def badPassword : String :=
  "<?xml version=\"1.0\" encoding=\"UTF-8\"?>\n\t<Response>\n\t\t<Say>No no no! That is not the password. I will now report you to Santa Claus.</Say>\n\t</Response>"

/-- The TwiML document that accepts the spoken password. -/
def okayPassword : String :=
  "<?xml version=\"1.0\" encoding=\"UTF-8\"?>\n\t<Response>\n\t\t<Say>Yes, testing 1 2 3 is the password. I would now execute an arbitrary function or functions.</Say>\n\t</Response>"

/-! ## The speech API types -/

/-- The `Config` field of `speechRequest`. -/
structure speechConfig where
  Encoding : String
  SampleRate : Int
deriving DecidableEq, Repr

/-- The `Audio` field of `speechRequest`. -/
structure speechAudio where
  Content : String
deriving DecidableEq, Repr

/-- The body of the request to the speech service, before `json.Marshal`. -/
structure speechRequest where
  Config : speechConfig
  Audio : speechAudio
deriving DecidableEq, Repr

/-- The `Error` field of the decoded speech response. -/
structure speechError where
  Code : Int
  Message : String
  Status : String

/-- One element of `Alternatives` in the decoded speech response. -/
structure speechAlternative where
  Transcript : String
  Confidence : Float

/-- One element of `Results` in the decoded speech response. -/
structure speechResult where
  Alternatives : List speechAlternative

/-- The anonymous struct `data` that `fetchTranscription` decodes the speech
response into. -/
structure speechData where
  Error : speechError
  Results : List speechResult

/-! ## The outside world -/

/-- What `urlfetch.Client(c).Get(url)` followed by `ioutil.ReadAll(res.Body)`
can yield: a transport error, or a response with its status code, its status
text and the outcome of reading its body. -/
inductive GetResult where
  | transportError (err : String)
  | response (StatusCode : Nat) (Status : String) (Body : Except String (List Byte))

/-- What `urlfetch.Client(c).Post(...)` followed by decoding the JSON body into
`data` can yield: a transport error, or a response together with the outcome of
`json.NewDecoder(res.Body).Decode(&data)`. -/
inductive PostResult where
  | transportError (err : String)
  | response (decoded : Except String speechData)

/-- Everything the handler depends on outside its own code. -/
structure World where
  /-- The value of `os.Getenv("SPEECH_API_KEY")` at start-up. -/
  SPEECH_API_KEY : String
  /-- The media host answering the audio GET. -/
  Get : String → GetResult
  /-- The function `json.Marshal` applied to a `speechRequest`. -/
  Marshal : speechRequest → Except String (List Byte)
  /-- The speech service answering the POST of a body with a content type. -/
  Post : String → String → List Byte → PostResult

/-- An outbound HTTP call issued through `urlfetch.Client`. -/
inductive Call where
  | get (url : String)
  | post (url : String) (contentType : String) (body : List Byte)
deriving DecidableEq, Repr

/-- A line handed to the App Engine logger. -/
inductive LogEntry where
  | info (msg : String)
  | error (msg : String)
deriving DecidableEq, Repr

/-! ## `encoding/base64`: the standard encoding -/

/-- The alphabet of `base64.StdEncoding`. -/
def encodeStd : String :=
  "ABCDEFGHIJKLMNOPQRSTUVWXYZabcdefghijklmnopqrstuvwxyz0123456789+/"

/-- The padding character of `base64.StdEncoding`. -/
def StdPadding : Char := '='

/-- The table `enc.encode`, indexed by a 6-bit value. -/
def encode (i : Nat) : Char :=
  encodeStd.toList.getD i 'A'

/-- The table `enc.decodeMap`: the 6-bit value of an alphabet character, and
nothing for every other character. -/
def decodeMap (c : Char) : Option Nat :=
  let i := encodeStd.toList.indexOf c
  if i < 64 then some i else none

/-- The method `Encode` of `base64.StdEncoding`: three source bytes become four
characters; a remainder of one or two bytes becomes a padded group of four. -/
def Encode : List Byte → List Char
  | a :: b :: c :: rest =>
    let val := (a.val <<< 16) ||| (b.val <<< 8) ||| c.val
    encode ((val >>> 18) &&& 0x3F) :: encode ((val >>> 12) &&& 0x3F) ::
      encode ((val >>> 6) &&& 0x3F) :: encode (val &&& 0x3F) :: Encode rest
  | [a, b] =>
    let val := (a.val <<< 16) ||| (b.val <<< 8)
    [encode ((val >>> 18) &&& 0x3F), encode ((val >>> 12) &&& 0x3F),
      encode ((val >>> 6) &&& 0x3F), StdPadding]
  | [a] =>
    let val := a.val <<< 16
    [encode ((val >>> 18) &&& 0x3F), encode ((val >>> 12) &&& 0x3F), StdPadding, StdPadding]
  | [] => []

/-- The method `base64.StdEncoding.EncodeToString(src)`. -/
def EncodeToString (src : List Byte) : String :=
  String.mk (Encode src)

/-- The conversion `byte(v)` of an unsigned integer: the low eight bits. -/
def toByte (v : Nat) : Byte :=
  ⟨v % 256, Nat.mod_lt v (by decide)⟩

/-- Decoding of standard base64 with padding (RFC 4648, section 4), as done by
`base64.StdEncoding.Decode` on input without line breaks: four alphabet
characters become three bytes; the last group may end in one or two padding
characters and then yields two bytes or one; anything else is an error. -/
def Decode : List Char → Option (List Byte)
  | [] => some []
  | c0 :: c1 :: c2 :: c3 :: rest =>
    if c3 = StdPadding then
      if rest ≠ [] then none
      else if c2 = StdPadding then
        match decodeMap c0, decodeMap c1 with
        | some s0, some s1 =>
          let val := (s0 <<< 18) ||| (s1 <<< 12)
          some [toByte (val >>> 16)]
        | _, _ => none
      else
        match decodeMap c0, decodeMap c1, decodeMap c2 with
        | some s0, some s1, some s2 =>
          let val := (s0 <<< 18) ||| (s1 <<< 12) ||| (s2 <<< 6)
          some [toByte (val >>> 16), toByte (val >>> 8)]
        | _, _, _ => none
    else
      match decodeMap c0, decodeMap c1, decodeMap c2, decodeMap c3, Decode rest with
      | some s0, some s1, some s2, some s3, some tail =>
        let val := (s0 <<< 18) ||| (s1 <<< 12) ||| (s2 <<< 6) ||| s3
        some (toByte (val >>> 16) :: toByte (val >>> 8) :: toByte val :: tail)
      | _, _, _, _, _ => none
  | _ => none

/-- The method `base64.StdEncoding.DecodeString(s)`. -/
def DecodeString (s : String) : Option (List Byte) :=
  Decode s.toList

/-! ## The program -/

/-- The package variable `speechURL`. -/
def speechURL (world : World) : String :=
  "https://speech.googleapis.com/v1beta1/speech:syncrecognize?key=" ++ world.SPEECH_API_KEY

/-- The function `fetchAudio` retrieves the recorded audio: the bytes read (none on failure),
the error (`none` for the `nil` of Go), and the outbound calls issued. -/
def fetchAudio (world : World) (url : String) : (List Byte × Option String) × List Call :=
  match world.Get url with
  | .transportError err =>
    (([], some ("could not fetch " ++ url ++ ": " ++ err)), [Call.get url])
  | .response StatusCode Status Body =>
    if StatusCode ≠ StatusOK then
      (([], some ("fetched with status: " ++ Status)), [Call.get url])
    else
      match Body with
      | .error err => (([], some ("could not read response: " ++ err)), [Call.get url])
      | .ok b => ((b, none), [Call.get url])

/-- The function `fetchTranscription` sends the audio as a base64 string to the speech
service: the transcript (empty on failure), the error (`none` for the `nil` of Go),
and the outbound calls issued. -/
def fetchTranscription (world : World) (b : List Byte) : (String × Option String) × List Call :=
  let req : speechRequest :=
    { Config := { Encoding := "LINEAR16", SampleRate := 8000 },
      Audio := { Content := EncodeToString b } }
  match world.Marshal req with
  | .error err => (("", some ("could not encode speech request properly: " ++ err)), [])
  | .ok jBytes =>
    let calls := [Call.post (speechURL world) "application/json" jBytes]
    match world.Post (speechURL world) "application/json" jBytes with
    | .transportError err => (("", some ("could not transcribe audio: " ++ err)), calls)
    | .response (.error err) =>
      (("", some ("could not decode speech response: " ++ err)), calls)
    | .response (.ok data) =>
      if data.Error.Code ≠ 0 then
        (("", some ("Speech API error has occurred! " ++ toString data.Error.Code ++ " " ++
          data.Error.Status ++ " " ++ data.Error.Message)), calls)
      else
        match data.Results with
        | [] => (("", some "No transcriptions found."), calls)
        | result0 :: _ =>
          match result0.Alternatives with
          | [] => (("", some "No transcriptions found."), calls)
          | alternative0 :: _ => ((alternative0.Transcript, none), calls)

/-- The function `transcribe` fetches the audio and, only if that succeeded, asks for its
transcription. -/
def transcribe (world : World) (url : String) : (String × Option String) × List Call :=
  match fetchAudio world url with
  | ((_, some err), calls) => (("", some err), calls)
  | ((b, none), calls) =>
    let (res, calls2) := fetchTranscription world b
    (res, calls ++ calls2)

/-- What one run of `handler` leaves behind: the response writer, the outbound
calls issued, and the log. -/
structure Outcome where
  w : ResponseWriter
  calls : List Call
  log : List LogEntry
deriving DecidableEq, Repr

/-- The call `log.Infof(c, "%s: %v", k, v)` for a form key and its values. -/
def Infof (k : String) (v : List String) : LogEntry :=
  LogEntry.info (k ++ ": [" ++ " ".intercalate v ++ "]")

/-- The function `handler` is the main routing endpoint. -/
def handler (world : World) (w : ResponseWriter) (r : Request) : Outcome :=
  let w := w.SetHeader "Content-Type" "text/xml"
  let recording := r.FormValue "RecordingUrl"
  if recording = "" then
    { w := Fprint w greeting, calls := [], log := [] }
  else
    let infos := r.PostForm.map (fun kv => Infof kv.1 kv.2)
    match transcribe world recording with
    | ((_, some err), calls) =>
      { w := httpError w "could not transcribe" StatusInternalServerError,
        calls := calls,
        log := infos ++ [LogEntry.error ("could not transcribe: " ++ err)] }
    | ((text, none), calls) =>
      if text = "testing 1 2 3" then
        { w := Fprint w okayPassword, calls := calls, log := infos }
      else
        { w := Fprint w badPassword, calls := calls, log := infos }

/-- The response `handler` sends after a failure of `transcribe`. -/
def failureResponse : ResponseWriter :=
  { header := [("X-Content-Type-Options", "nosniff"),
      ("Content-Type", "text/plain; charset=utf-8")],
    status := some 500,
    body := "could not transcribe\n" }

/-! ## Sample requests and worlds -/

/-- A recording URL as the telephony platform would post it. -/
def sampleUrl : String := "http://media.example/rec1"

/-- A callback that carries a recording URL. -/
def sampleRequest : Request :=
  { Form := [("RecordingUrl", [sampleUrl])], PostForm := [("RecordingUrl", [sampleUrl])] }

/-- A callback without any recording URL. -/
def firstRequest : Request :=
  { Form := [("CallSid", ["CA1"])], PostForm := [("CallSid", ["CA1"])] }

/-- Five bytes of audio. -/
def sampleAudio : List Byte := [82, 73, 70, 70, 255]

/-- The JSON text of a speech request whose strings need no escaping, as
bytes. -/
def sampleMarshal (req : speechRequest) : Except String (List Byte) :=
  Except.ok (("\x7b\"config\":\x7b\"encoding\":\"" ++ req.Config.Encoding ++ "\",\"sampleRate\":" ++
    toString req.Config.SampleRate ++ "\x7d,\"audio\":\x7b\"content\":\"" ++ req.Audio.Content ++
    "\"\x7d\x7d").toList.map (fun ch => toByte ch.toNat))

/-- A world in which every GET is answered by `audio` and every POST by
`speech`. -/
def sampleWorld (audio : GetResult) (speech : PostResult) : World :=
  { SPEECH_API_KEY := "KEY",
    Get := fun _ => audio,
    Marshal := sampleMarshal,
    Post := fun _ _ _ => speech }

/-- The media host serving `sampleAudio`. -/
def audioOK : GetResult :=
  GetResult.response 200 "200 OK" (Except.ok sampleAudio)

/-- The media host answering 404. -/
def audioNotFound : GetResult :=
  GetResult.response 404 "404 Not Found" (Except.ok [])

/-- A speech response without error whose only alternative is `t`. -/
def speechOK (t : String) : PostResult :=
  PostResult.response (Except.ok
    { Error := { Code := 0, Message := "", Status := "" },
      Results := [{ Alternatives := [{ Transcript := t, Confidence := 0.5 }] }] })

/-- The decoded speech response that reports error 403 and still carries the
passphrase as its first transcript. -/
def deniedData : speechData :=
  { Error :=
      { Code := 403,
        Message := "The request is missing a valid API key.",
        Status := "PERMISSION_DENIED" },
    Results := [{ Alternatives := [{ Transcript := "testing 1 2 3", Confidence := 0.5 }] }] }

/-- The decoded speech response without error whose first result has no
alternative, while a later result carries the passphrase. -/
def hollowData : speechData :=
  { Error := { Code := 0, Message := "", Status := "" },
    Results :=
      [{ Alternatives := [] },
       { Alternatives := [{ Transcript := "testing 1 2 3", Confidence := 0.5 }] }] }

/-- The decoded speech response without error with two results and two
alternatives in the first one. -/
def richData : speechData :=
  { Error := { Code := 0, Message := "", Status := "" },
    Results :=
      [{ Alternatives :=
          [{ Transcript := " Testing 1 2 3 ", Confidence := 0.25 },
           { Transcript := "testing 1 2 3", Confidence := 0.75 }] },
       { Alternatives := [{ Transcript := "testing 1 2 3", Confidence := 0.5 }] }] }

/-! ## Base64: encoding followed by decoding -/

/-- Masking with `0x3F` keeps the low six bits. -/
theorem and_0x3F (x : Nat) : x &&& 0x3F = x % 64 :=
  Nat.and_pow_two_sub_one_eq_mod x 6

/-- Two bytes packed with shifts and an or, as in the two-byte remainder. -/
theorem pack_bytes_two (a b : Nat) (hb : b < 256) :
    (a <<< 16) ||| (b <<< 8) = a * 65536 + b * 256 := by
  have h := Nat.mul_add_lt_is_or (show b * 256 < 2 ^ 16 by omega) a
  rw [Nat.shiftLeft_eq, Nat.shiftLeft_eq, Nat.mul_comm a (2 ^ 16), ← h]

/-- Three bytes packed with shifts and ors form the number with those base-256
digits. -/
theorem pack_bytes (a b c : Nat) (hb : b < 256) (hc : c < 256) :
    (a <<< 16) ||| (b <<< 8) ||| c = a * 65536 + b * 256 + c := by
  have h2 := Nat.mul_add_lt_is_or (show c < 2 ^ 8 by omega) (a * 256 + b)
  rw [pack_bytes_two a b hb, show a * 65536 + b * 256 = 2 ^ 8 * (a * 256 + b) by ring]
  exact h2.symm

/-- Two 6-bit values packed with shifts and an or, as in the group with two
padding characters. -/
theorem pack_sextets_two (s0 s1 : Nat) (h1 : s1 < 64) :
    (s0 <<< 18) ||| (s1 <<< 12) = s0 * 262144 + s1 * 4096 := by
  have h := Nat.mul_add_lt_is_or (show s1 * 4096 < 2 ^ 18 by omega) s0
  rw [Nat.shiftLeft_eq, Nat.shiftLeft_eq, Nat.mul_comm s0 (2 ^ 18), ← h]

/-- Three 6-bit values packed with shifts and ors, as in the group with one
padding character. -/
theorem pack_sextets_three (s0 s1 s2 : Nat) (h1 : s1 < 64) (h2 : s2 < 64) :
    (s0 <<< 18) ||| (s1 <<< 12) ||| (s2 <<< 6) = s0 * 262144 + s1 * 4096 + s2 * 64 := by
  have h := Nat.mul_add_lt_is_or (show s2 * 64 < 2 ^ 12 by omega) (s0 * 64 + s1)
  rw [pack_sextets_two s0 s1 h1, Nat.shiftLeft_eq,
    show s0 * 262144 + s1 * 4096 = 2 ^ 12 * (s0 * 64 + s1) by ring]
  exact h.symm

/-- Four 6-bit values packed with shifts and ors form the number with those
base-64 digits. -/
theorem pack_sextets (s0 s1 s2 s3 : Nat) (h1 : s1 < 64) (h2 : s2 < 64) (h3 : s3 < 64) :
    (s0 <<< 18) ||| (s1 <<< 12) ||| (s2 <<< 6) ||| s3 =
      s0 * 262144 + s1 * 4096 + s2 * 64 + s3 := by
  have h := Nat.mul_add_lt_is_or (show s3 < 2 ^ 6 by omega) (s0 * 4096 + s1 * 64 + s2)
  rw [pack_sextets_three s0 s1 s2 h1 h2,
    show s0 * 262144 + s1 * 4096 + s2 * 64 = 2 ^ 6 * (s0 * 4096 + s1 * 64 + s2) by ring]
  exact h.symm

/-- Every 6-bit value is decoded back from its alphabet character. -/
theorem decodeMap_encode : ∀ i, i < 64 → decodeMap (encode i) = some i := by
  decide

/-- No alphabet character is the padding character. -/
theorem encode_ne_padding : ∀ i, i < 64 → encode i ≠ StdPadding := by
  decide

/-- A full group of three bytes is decoded back, followed by the rest. -/
theorem Decode_Encode_cons (a b c : Byte) (rest : List Byte) :
    Decode (Encode (a :: b :: c :: rest)) =
      (Decode (Encode rest)).map (fun tail => a :: b :: c :: tail) := by
  have ha := a.isLt
  have hb := b.isLt
  have hc := c.isLt
  simp only [Encode, pack_bytes a.val b.val c.val hb hc, and_0x3F, Nat.shiftRight_eq_div_pow]
  have k0 : (a.val * 65536 + b.val * 256 + c.val) / 2 ^ 18 % 64 < 64 := Nat.mod_lt _ (by decide)
  have k1 : (a.val * 65536 + b.val * 256 + c.val) / 2 ^ 12 % 64 < 64 := Nat.mod_lt _ (by decide)
  have k2 : (a.val * 65536 + b.val * 256 + c.val) / 2 ^ 6 % 64 < 64 := Nat.mod_lt _ (by decide)
  have k3 : (a.val * 65536 + b.val * 256 + c.val) % 64 < 64 := Nat.mod_lt _ (by decide)
  rw [Decode]
  simp only [encode_ne_padding _ k3, if_false, decodeMap_encode _ k0, decodeMap_encode _ k1,
    decodeMap_encode _ k2, decodeMap_encode _ k3, pack_sextets _ _ _ _ k1 k2 k3]
  have e0 : toByte (((a.val * 65536 + b.val * 256 + c.val) / 2 ^ 18 % 64 * 262144 +
      (a.val * 65536 + b.val * 256 + c.val) / 2 ^ 12 % 64 * 4096 +
      (a.val * 65536 + b.val * 256 + c.val) / 2 ^ 6 % 64 * 64 +
      (a.val * 65536 + b.val * 256 + c.val) % 64) / 2 ^ 16) = a := by
    apply Fin.ext
    simp only [toByte]
    omega
  have e1 : toByte (((a.val * 65536 + b.val * 256 + c.val) / 2 ^ 18 % 64 * 262144 +
      (a.val * 65536 + b.val * 256 + c.val) / 2 ^ 12 % 64 * 4096 +
      (a.val * 65536 + b.val * 256 + c.val) / 2 ^ 6 % 64 * 64 +
      (a.val * 65536 + b.val * 256 + c.val) % 64) / 2 ^ 8) = b := by
    apply Fin.ext
    simp only [toByte]
    omega
  have e2 : toByte ((a.val * 65536 + b.val * 256 + c.val) / 2 ^ 18 % 64 * 262144 +
      (a.val * 65536 + b.val * 256 + c.val) / 2 ^ 12 % 64 * 4096 +
      (a.val * 65536 + b.val * 256 + c.val) / 2 ^ 6 % 64 * 64 +
      (a.val * 65536 + b.val * 256 + c.val) % 64) = c := by
    apply Fin.ext
    simp only [toByte]
    omega
  cases Decode (Encode rest) with
  | none => rfl
  | some tail =>
    simp only [Option.map_some', pack_sextets _ _ _ _ k1 k2 k3, Nat.shiftRight_eq_div_pow,
      e0, e1, e2]

/-- A remainder of two bytes, encoded with one padding character, is decoded
back. -/
theorem Decode_Encode_two (a b : Byte) : Decode (Encode [a, b]) = some [a, b] := by
  have ha := a.isLt
  have hb := b.isLt
  simp only [Encode, pack_bytes_two a.val b.val hb, and_0x3F, Nat.shiftRight_eq_div_pow]
  have k0 : (a.val * 65536 + b.val * 256) / 2 ^ 18 % 64 < 64 := Nat.mod_lt _ (by decide)
  have k1 : (a.val * 65536 + b.val * 256) / 2 ^ 12 % 64 < 64 := Nat.mod_lt _ (by decide)
  have k2 : (a.val * 65536 + b.val * 256) / 2 ^ 6 % 64 < 64 := Nat.mod_lt _ (by decide)
  have hs := pack_sextets_three ((a.val * 65536 + b.val * 256) / 2 ^ 18 % 64)
    ((a.val * 65536 + b.val * 256) / 2 ^ 12 % 64) ((a.val * 65536 + b.val * 256) / 2 ^ 6 % 64)
    k1 k2
  have e0 : toByte (((a.val * 65536 + b.val * 256) / 2 ^ 18 % 64 * 262144 +
      (a.val * 65536 + b.val * 256) / 2 ^ 12 % 64 * 4096 +
      (a.val * 65536 + b.val * 256) / 2 ^ 6 % 64 * 64) / 2 ^ 16) = a := by
    apply Fin.ext
    simp only [toByte]
    omega
  have e1 : toByte (((a.val * 65536 + b.val * 256) / 2 ^ 18 % 64 * 262144 +
      (a.val * 65536 + b.val * 256) / 2 ^ 12 % 64 * 4096 +
      (a.val * 65536 + b.val * 256) / 2 ^ 6 % 64 * 64) / 2 ^ 8) = b := by
    apply Fin.ext
    simp only [toByte]
    omega
  rw [Decode]
  simp only [if_true, ne_eq, not_true_eq_false, if_false, encode_ne_padding _ k2,
    decodeMap_encode _ k0, decodeMap_encode _ k1, decodeMap_encode _ k2, hs,
    Nat.shiftRight_eq_div_pow, e0, e1]

/-- A remainder of one byte, encoded with two padding characters, is decoded
back. -/
theorem Decode_Encode_one (a : Byte) : Decode (Encode [a]) = some [a] := by
  have ha := a.isLt
  simp only [Encode, Nat.shiftLeft_eq, and_0x3F, Nat.shiftRight_eq_div_pow]
  have k0 : a.val * 2 ^ 16 / 2 ^ 18 % 64 < 64 := Nat.mod_lt _ (by decide)
  have k1 : a.val * 2 ^ 16 / 2 ^ 12 % 64 < 64 := Nat.mod_lt _ (by decide)
  have hs := pack_sextets_two (a.val * 2 ^ 16 / 2 ^ 18 % 64) (a.val * 2 ^ 16 / 2 ^ 12 % 64) k1
  have e0 : toByte ((a.val * 2 ^ 16 / 2 ^ 18 % 64 * 262144 +
      a.val * 2 ^ 16 / 2 ^ 12 % 64 * 4096) / 2 ^ 16) = a := by
    apply Fin.ext
    simp only [toByte]
    omega
  rw [Decode]
  simp only [if_true, ne_eq, not_true_eq_false, if_false,
    decodeMap_encode _ k0, decodeMap_encode _ k1, hs, Nat.shiftRight_eq_div_pow, e0]

/-- Decoding undoes encoding, on lists of characters. -/
theorem Decode_Encode (b : List Byte) : Decode (Encode b) = some b := by
  induction b using Encode.induct with
  | case1 a b c rest ih => rw [Decode_Encode_cons, ih]; rfl
  | case2 a b => exact Decode_Encode_two a b
  | case3 a => exact Decode_Encode_one a
  | case4 => rfl

/-! ## How the pieces of the handler compose -/

/-- Whatever the world answers, `fetchAudio` issues exactly the audio GET. -/
theorem fetchAudio_calls (world : World) (url : String) :
    (fetchAudio world url).2 = [Call.get url] := by
  unfold fetchAudio
  split
  · rfl
  · split
    · rfl
    · split <;> rfl

/-- A 200 response whose body is read in full makes `fetchAudio` return that
body. -/
theorem fetchAudio_ok (world : World) (url status : String) (b : List Byte)
    (hget : world.Get url = GetResult.response StatusOK status (Except.ok b)) :
    fetchAudio world url = ((b, none), [Call.get url]) := by
  simp [fetchAudio, hget]

/-- After a successful audio fetch, `transcribe` is `fetchTranscription` on the
fetched bytes, with the audio GET in front of its calls. -/
theorem transcribe_of_fetchAudio_ok (world : World) (url : String) (b : List Byte)
    (h : (fetchAudio world url).1 = (b, none)) :
    transcribe world url =
      ((fetchTranscription world b).1, Call.get url :: (fetchTranscription world b).2) := by
  have hc := fetchAudio_calls world url
  unfold transcribe
  rcases hfa : fetchAudio world url with ⟨⟨b1, e1⟩, c1⟩
  rw [hfa] at h hc
  simp only [Prod.mk.injEq] at h
  obtain ⟨rfl, rfl⟩ := h
  simp only at hc
  subst hc
  rfl

/-- After a failed audio fetch, `transcribe` fails with the same error and has
issued the audio GET only. -/
theorem transcribe_of_fetchAudio_error (world : World) (url err : String)
    (h : (fetchAudio world url).1.2 = some err) :
    transcribe world url = (("", some err), [Call.get url]) := by
  have hc := fetchAudio_calls world url
  unfold transcribe
  rcases hfa : fetchAudio world url with ⟨⟨b1, e1⟩, c1⟩
  rw [hfa] at h hc
  simp only at h hc
  subst h hc
  rfl

/-- With a recording URL and a failing `transcribe`, `handler` answers through
`http.Error`. -/
theorem handler_of_transcribe_error (world : World) (r : Request) (err : String)
    (hrec : r.FormValue "RecordingUrl" ≠ "")
    (h : (transcribe world (r.FormValue "RecordingUrl")).1.2 = some err) :
    (handler world ResponseWriter.new r).w = failureResponse ∧
      (handler world ResponseWriter.new r).calls =
        (transcribe world (r.FormValue "RecordingUrl")).2 := by
  unfold handler
  rcases htr : transcribe world (r.FormValue "RecordingUrl") with ⟨⟨t1, e1⟩, c1⟩
  rw [htr] at h
  simp only at h
  subst h
  simp only [htr, hrec, if_false, and_true]
  rfl

/-- With a recording URL and a transcript, `handler` writes one of the two
password documents. -/
theorem handler_of_transcribe_ok (world : World) (r : Request) (t : String)
    (hrec : r.FormValue "RecordingUrl" ≠ "")
    (h : (transcribe world (r.FormValue "RecordingUrl")).1 = (t, none)) :
    (handler world ResponseWriter.new r).w =
        Fprint (ResponseWriter.new.SetHeader "Content-Type" "text/xml")
          (if t = "testing 1 2 3" then okayPassword else badPassword) ∧
      (handler world ResponseWriter.new r).calls =
        (transcribe world (r.FormValue "RecordingUrl")).2 := by
  unfold handler
  rcases htr : transcribe world (r.FormValue "RecordingUrl") with ⟨⟨t1, e1⟩, c1⟩
  rw [htr] at h
  simp only [Prod.mk.injEq] at h
  obtain ⟨rfl, rfl⟩ := h
  simp only [htr, hrec, if_false]
  split <;> exact ⟨rfl, rfl⟩

/-! ## The claims -/

/-- C1: when the audio fetch succeeds and `fetchTranscription` returns the
transcript `t` without error, `handler` answers with status 200 and writes
`okayPassword` if `t` is exactly "testing 1 2 3" and `badPassword` for every
other `t`, among them "testing 1 2 4", the empty string and "Testing 1 2 3". -/
theorem handler_password_check (world : World) (r : Request) (b : List Byte) (t : String)
    (hrec : r.FormValue "RecordingUrl" ≠ "")
    (haudio : (fetchAudio world (r.FormValue "RecordingUrl")).1 = (b, none))
    (htext : (fetchTranscription world b).1 = (t, none)) :
    (handler world ResponseWriter.new r).w.status = some StatusOK ∧
      (t = "testing 1 2 3" → (handler world ResponseWriter.new r).w.body = okayPassword) ∧
      (t ≠ "testing 1 2 3" → (handler world ResponseWriter.new r).w.body = badPassword) ∧
      (t ∈ ["testing 1 2 4", "", "Testing 1 2 3"] →
        (handler world ResponseWriter.new r).w.body = badPassword) := by
  have htr := transcribe_of_fetchAudio_ok world _ b haudio
  have h := (handler_of_transcribe_ok world r t hrec (by rw [htr]; exact htext)).1
  rw [h]
  have hbad : t ≠ "testing 1 2 3" →
      (Fprint (ResponseWriter.new.SetHeader "Content-Type" "text/xml")
        (if t = "testing 1 2 3" then okayPassword else badPassword)).body = badPassword := by
    intro hne
    rw [if_neg hne]
    rfl
  refine ⟨rfl, ?_, hbad, ?_⟩
  · intro heq
    rw [if_pos heq]
    rfl
  · intro hmem
    apply hbad
    simp only [List.mem_cons, List.mem_singleton, List.not_mem_nil, or_false] at hmem
    rcases hmem with h1 | h1 | h1 <;> rw [h1] <;> decide

/-- C1, at a world that transcribes the audio as "Testing 1 2 3". -/
theorem handler_password_check_witness :
    sampleRequest.FormValue "RecordingUrl" ≠ "" ∧
      (fetchAudio (sampleWorld audioOK (speechOK "Testing 1 2 3"))
        (sampleRequest.FormValue "RecordingUrl")).1 = (sampleAudio, none) ∧
      (fetchTranscription (sampleWorld audioOK (speechOK "Testing 1 2 3")) sampleAudio).1 =
        ("Testing 1 2 3", none) ∧
      (handler (sampleWorld audioOK (speechOK "Testing 1 2 3")) ResponseWriter.new
        sampleRequest).w.body = badPassword :=
  ⟨by decide, rfl, rfl,
    (handler_password_check (sampleWorld audioOK (speechOK "Testing 1 2 3")) sampleRequest
      sampleAudio "Testing 1 2 3" (by decide) rfl rfl).2.2.1 (by decide)⟩

/-- C2: when the RecordingUrl form value is absent or empty, `handler` writes
exactly the greeting with status 200 and issues no outbound call at all. -/
theorem handler_greeting (world : World) (r : Request)
    (h : r.Form.lookup "RecordingUrl" = none ∨ r.FormValue "RecordingUrl" = "") :
    (handler world ResponseWriter.new r).w.body = greeting ∧
      (handler world ResponseWriter.new r).w.status = some StatusOK ∧
      (handler world ResponseWriter.new r).calls = [] := by
  have hrec : r.FormValue "RecordingUrl" = "" := by
    rcases h with h | h
    · simp [Request.FormValue, h]
    · exact h
  unfold handler
  simp only [hrec, if_true]
  exact ⟨rfl, rfl, trivial⟩

/-- C2, at a callback that has no RecordingUrl field. -/
theorem handler_greeting_witness :
    (firstRequest.Form.lookup "RecordingUrl" = none ∨
        firstRequest.FormValue "RecordingUrl" = "") ∧
      (handler (sampleWorld audioOK (speechOK "testing 1 2 3")) ResponseWriter.new
        firstRequest).w.body = greeting ∧
      (handler (sampleWorld audioOK (speechOK "testing 1 2 3")) ResponseWriter.new
        firstRequest).w.status = some StatusOK ∧
      (handler (sampleWorld audioOK (speechOK "testing 1 2 3")) ResponseWriter.new
        firstRequest).calls = [] :=
  ⟨Or.inl (by decide),
    handler_greeting (sampleWorld audioOK (speechOK "testing 1 2 3")) firstRequest
      (Or.inl (by decide))⟩

/-- C3: with a non-empty RecordingUrl, when the audio GET fails transport-side
or is answered with a status other than 200, `handler` answers with status 500,
and the audio GET is the only outbound call of `transcribe` and of `handler`:
the transcription POST is never issued. -/
theorem handler_audio_fetch_fails (world : World) (r : Request)
    (hrec : r.FormValue "RecordingUrl" ≠ "")
    (hfail : (∃ err, world.Get (r.FormValue "RecordingUrl") = GetResult.transportError err) ∨
      (∃ code status body, world.Get (r.FormValue "RecordingUrl") =
        GetResult.response code status body ∧ code ≠ StatusOK)) :
    (handler world ResponseWriter.new r).w.status = some StatusInternalServerError ∧
      (transcribe world (r.FormValue "RecordingUrl")).2 =
        [Call.get (r.FormValue "RecordingUrl")] ∧
      (handler world ResponseWriter.new r).calls = [Call.get (r.FormValue "RecordingUrl")] ∧
      (∀ url contentType body,
        Call.post url contentType body ∉ (handler world ResponseWriter.new r).calls) := by
  have hfa : ∃ err, (fetchAudio world (r.FormValue "RecordingUrl")).1.2 = some err := by
    rcases hfail with ⟨err, hg⟩ | ⟨code, status, body, hg, hcode⟩
    · exact ⟨"could not fetch " ++ r.FormValue "RecordingUrl" ++ ": " ++ err,
        by simp only [fetchAudio, hg]⟩
    · exact ⟨"fetched with status: " ++ status,
        by simp only [fetchAudio, hg, hcode, ne_eq, not_false_eq_true, if_true]⟩
  obtain ⟨err, herr⟩ := hfa
  have htr := transcribe_of_fetchAudio_error world _ err herr
  have h := handler_of_transcribe_error world r err hrec (by rw [htr])
  rw [h.1, h.2, htr]
  refine ⟨rfl, rfl, rfl, ?_⟩
  intro url contentType body hmem
  simp at hmem

/-- C3, at a media host that answers 404 while the speech service would have
accepted the passphrase. -/
theorem handler_audio_fetch_fails_witness :
    sampleRequest.FormValue "RecordingUrl" ≠ "" ∧
      (handler (sampleWorld audioNotFound (speechOK "testing 1 2 3")) ResponseWriter.new
        sampleRequest).w.status = some StatusInternalServerError ∧
      (handler (sampleWorld audioNotFound (speechOK "testing 1 2 3")) ResponseWriter.new
        sampleRequest).calls = [Call.get (sampleRequest.FormValue "RecordingUrl")] :=
  have h := handler_audio_fetch_fails (sampleWorld audioNotFound (speechOK "testing 1 2 3"))
    sampleRequest (by decide) (Or.inr ⟨404, "404 Not Found", Except.ok [], rfl, by decide⟩)
  ⟨by decide, h.1, h.2.2.1⟩

/-- C4: when the decoded speech response has a non-zero error code,
`fetchTranscription` fails with the error text that carries the code, the
status and the message of the response, whatever its results are, and `handler`
answers with status 500. -/
theorem service_error_surfaces (world : World) (r : Request) (status : String)
    (b jBytes : List Byte) (data : speechData)
    (hrec : r.FormValue "RecordingUrl" ≠ "")
    (hget : world.Get (r.FormValue "RecordingUrl") =
      GetResult.response StatusOK status (Except.ok b))
    (hmarshal : world.Marshal
      { Config := { Encoding := "LINEAR16", SampleRate := 8000 },
        Audio := { Content := EncodeToString b } } = Except.ok jBytes)
    (hpost : world.Post (speechURL world) "application/json" jBytes =
      PostResult.response (Except.ok data))
    (hcode : data.Error.Code ≠ 0) :
    (fetchTranscription world b).1 =
        ("", some ("Speech API error has occurred! " ++ toString data.Error.Code ++ " " ++
          data.Error.Status ++ " " ++ data.Error.Message)) ∧
      (handler world ResponseWriter.new r).w.status = some StatusInternalServerError := by
  have hft : (fetchTranscription world b).1 =
      ("", some ("Speech API error has occurred! " ++ toString data.Error.Code ++ " " ++
        data.Error.Status ++ " " ++ data.Error.Message)) := by
    simp only [fetchTranscription, hmarshal, hpost, hcode, ne_eq, not_false_eq_true, if_true]
  have hfa := fetchAudio_ok world _ status b hget
  have htr := transcribe_of_fetchAudio_ok world _ b (by rw [hfa])
  have h := handler_of_transcribe_error world r _ hrec (by rw [htr, hft])
  rw [h.1]
  exact ⟨hft, rfl⟩

/-- C4, at a speech response that reports error 403 and still carries the
passphrase as its first transcript. -/
theorem service_error_surfaces_witness :
    deniedData.Error.Code ≠ 0 ∧
      (fetchTranscription (sampleWorld audioOK (PostResult.response (Except.ok deniedData)))
        sampleAudio).1 =
        ("", some ("Speech API error has occurred! 403 PERMISSION_DENIED " ++
          "The request is missing a valid API key.")) ∧
      (handler (sampleWorld audioOK (PostResult.response (Except.ok deniedData)))
        ResponseWriter.new sampleRequest).w.status = some StatusInternalServerError :=
  ⟨by decide,
    service_error_surfaces (sampleWorld audioOK (PostResult.response (Except.ok deniedData)))
      sampleRequest "200 OK" sampleAudio _ deniedData (by decide) rfl rfl rfl (by decide)⟩

/-- C5: when the decoded speech response has error code 0 and its results list
is empty, or the alternatives list of its first result is empty whatever the
later results hold, `fetchTranscription` fails with "No transcriptions found."
and returns no transcript, and `handler` answers with status 500. -/
theorem no_transcription_surfaces (world : World) (r : Request) (status : String)
    (b jBytes : List Byte) (data : speechData)
    (hrec : r.FormValue "RecordingUrl" ≠ "")
    (hget : world.Get (r.FormValue "RecordingUrl") =
      GetResult.response StatusOK status (Except.ok b))
    (hmarshal : world.Marshal
      { Config := { Encoding := "LINEAR16", SampleRate := 8000 },
        Audio := { Content := EncodeToString b } } = Except.ok jBytes)
    (hpost : world.Post (speechURL world) "application/json" jBytes =
      PostResult.response (Except.ok data))
    (hcode : data.Error.Code = 0)
    (hempty : data.Results = [] ∨
      (∃ result0 later, data.Results = result0 :: later ∧ result0.Alternatives = [])) :
    (fetchTranscription world b).1 = ("", some "No transcriptions found.") ∧
      (handler world ResponseWriter.new r).w.status = some StatusInternalServerError := by
  have hft : (fetchTranscription world b).1 = ("", some "No transcriptions found.") := by
    rcases hempty with hres | ⟨result0, later, hres, halt⟩
    · simp only [fetchTranscription, hmarshal, hpost, hcode, hres, ne_eq, not_true_eq_false,
        if_false]
    · simp only [fetchTranscription, hmarshal, hpost, hcode, hres, halt, ne_eq,
        not_true_eq_false, if_false]
  have hfa := fetchAudio_ok world _ status b hget
  have htr := transcribe_of_fetchAudio_ok world _ b (by rw [hfa])
  have h := handler_of_transcribe_error world r _ hrec (by rw [htr, hft])
  rw [h.1]
  exact ⟨hft, rfl⟩

/-- C5, at a speech response whose first result has no alternative while its
second result carries the passphrase. -/
theorem no_transcription_surfaces_witness :
    hollowData.Error.Code = 0 ∧
      (fetchTranscription (sampleWorld audioOK (PostResult.response (Except.ok hollowData)))
        sampleAudio).1 = ("", some "No transcriptions found.") ∧
      (handler (sampleWorld audioOK (PostResult.response (Except.ok hollowData)))
        ResponseWriter.new sampleRequest).w.status = some StatusInternalServerError :=
  ⟨by decide,
    no_transcription_surfaces (sampleWorld audioOK (PostResult.response (Except.ok hollowData)))
      sampleRequest "200 OK" sampleAudio _ hollowData (by decide) rfl rfl rfl (by decide)
      (Or.inr ⟨_, _, rfl, rfl⟩)⟩

/-- C6: when the decoded speech response has error code 0, a first result and a
first alternative in it, `fetchTranscription` succeeds and returns exactly the
transcript of that alternative, whatever its confidence, the other alternatives
and the other results are. -/
theorem first_transcript_verbatim (world : World) (b jBytes : List Byte) (error : speechError)
    (transcript : String) (confidence : Float) (alternatives : List speechAlternative)
    (results : List speechResult)
    (hmarshal : world.Marshal
      { Config := { Encoding := "LINEAR16", SampleRate := 8000 },
        Audio := { Content := EncodeToString b } } = Except.ok jBytes)
    (hpost : world.Post (speechURL world) "application/json" jBytes =
      PostResult.response (Except.ok
        { Error := error,
          Results := { Alternatives :=
            { Transcript := transcript, Confidence := confidence } :: alternatives } ::
              results }))
    (hcode : error.Code = 0) :
    (fetchTranscription world b).1 = (transcript, none) := by
  simp only [fetchTranscription, hmarshal, hpost, hcode, ne_eq, not_true_eq_false, if_false]

/-- C6, at a speech response whose first transcript has a capital letter and
blanks at both ends, and whose other alternatives carry the passphrase. -/
theorem first_transcript_verbatim_witness :
    richData.Error.Code = 0 ∧
      (fetchTranscription (sampleWorld audioOK (PostResult.response (Except.ok richData)))
        sampleAudio).1 = (" Testing 1 2 3 ", none) :=
  ⟨by decide,
    first_transcript_verbatim (sampleWorld audioOK (PostResult.response (Except.ok richData)))
      sampleAudio _ richData.Error " Testing 1 2 3 " 0.25
      [{ Transcript := "testing 1 2 3", Confidence := 0.75 }]
      [{ Alternatives := [{ Transcript := "testing 1 2 3", Confidence := 0.5 }] }]
      rfl rfl (by decide)⟩

/-- C7: for every byte sequence `b` that `fetchAudio` returns, of whatever
length, the request that `fetchTranscription` builds has as its audio content
the standard base64 encoding of `b`, and decoding that content yields exactly
`b`; it is the marshalling of this request that `fetchTranscription` posts, and
when the marshalling fails nothing is posted. -/
theorem audio_content_roundtrip (world : World) (url : String) (b : List Byte)
    (haudio : (fetchAudio world url).1 = (b, none)) :
    ∃ req : speechRequest,
      req.Audio.Content = EncodeToString b ∧
      DecodeString req.Audio.Content = some b ∧
      (∀ jBytes, world.Marshal req = Except.ok jBytes →
        (fetchTranscription world b).2 =
            [Call.post (speechURL world) "application/json" jBytes] ∧
          (transcribe world url).2 =
            [Call.get url, Call.post (speechURL world) "application/json" jBytes]) ∧
      (∀ err, world.Marshal req = Except.error err →
        (fetchTranscription world b).2 = [] ∧ (transcribe world url).2 = [Call.get url]) := by
  refine ⟨⟨⟨"LINEAR16", 8000⟩, ⟨EncodeToString b⟩⟩, rfl, Decode_Encode b, ?_, ?_⟩
  · intro jBytes hmarshal
    have hft : (fetchTranscription world b).2 =
        [Call.post (speechURL world) "application/json" jBytes] := by
      simp only [fetchTranscription, hmarshal]
      split <;> first | rfl | (split <;> first | rfl | (split <;> first | rfl | (split <;> rfl)))
    rw [transcribe_of_fetchAudio_ok world url b haudio, hft]
    exact ⟨rfl, rfl⟩
  · intro err hmarshal
    have hft : (fetchTranscription world b).2 = [] := by
      simp only [fetchTranscription, hmarshal]
    rw [transcribe_of_fetchAudio_ok world url b haudio, hft]
    exact ⟨rfl, rfl⟩

/-- C7, at a world that serves five bytes of audio, a length that is not a
multiple of three: the posted body is the marshalling of a request whose audio
content decodes to those five bytes. -/
theorem audio_content_roundtrip_witness :
    (fetchAudio (sampleWorld audioOK (speechOK "testing 1 2 3")) sampleUrl).1 =
        (sampleAudio, none) ∧
      EncodeToString sampleAudio = "UklGRv8=" ∧
      DecodeString "UklGRv8=" = some sampleAudio ∧
      ∃ req : speechRequest,
        req.Audio.Content = EncodeToString sampleAudio ∧
        DecodeString req.Audio.Content = some sampleAudio ∧
        (∀ jBytes, (sampleWorld audioOK (speechOK "testing 1 2 3")).Marshal req =
            Except.ok jBytes →
          (fetchTranscription (sampleWorld audioOK (speechOK "testing 1 2 3")) sampleAudio).2 =
              [Call.post (speechURL (sampleWorld audioOK (speechOK "testing 1 2 3")))
                "application/json" jBytes] ∧
            (transcribe (sampleWorld audioOK (speechOK "testing 1 2 3")) sampleUrl).2 =
              [Call.get sampleUrl,
                Call.post (speechURL (sampleWorld audioOK (speechOK "testing 1 2 3")))
                  "application/json" jBytes]) ∧
        (∀ err, (sampleWorld audioOK (speechOK "testing 1 2 3")).Marshal req =
            Except.error err →
          (fetchTranscription (sampleWorld audioOK (speechOK "testing 1 2 3")) sampleAudio).2 =
              [] ∧
            (transcribe (sampleWorld audioOK (speechOK "testing 1 2 3")) sampleUrl).2 =
              [Call.get sampleUrl]) :=
  ⟨rfl, rfl, rfl,
    audio_content_roundtrip (sampleWorld audioOK (speechOK "testing 1 2 3")) sampleUrl
      sampleAudio rfl⟩

/-- C8: with a non-empty RecordingUrl, every failure of `transcribe` makes
`handler` answer with status 500 and the generic message "could not
transcribe" (written by `http.Error`, hence followed by a newline); two runs
that fail with whatever underlying errors leave the same response, header,
status and body alike. -/
theorem failure_response_uniform (world1 world2 : World) (r1 r2 : Request) (err1 err2 : String)
    (hrec1 : r1.FormValue "RecordingUrl" ≠ "")
    (hrec2 : r2.FormValue "RecordingUrl" ≠ "")
    (hfail1 : (transcribe world1 (r1.FormValue "RecordingUrl")).1.2 = some err1)
    (hfail2 : (transcribe world2 (r2.FormValue "RecordingUrl")).1.2 = some err2) :
    (handler world1 ResponseWriter.new r1).w.status = some StatusInternalServerError ∧
      (handler world1 ResponseWriter.new r1).w.body = "could not transcribe" ++ "\n" ∧
      (handler world1 ResponseWriter.new r1).w = (handler world2 ResponseWriter.new r2).w := by
  rw [(handler_of_transcribe_error world1 r1 err1 hrec1 hfail1).1,
    (handler_of_transcribe_error world2 r2 err2 hrec2 hfail2).1]
  exact ⟨rfl, rfl, rfl⟩

/-- C8, at one run whose audio fetch is answered 404 and one run whose speech
service reports error 403. -/
theorem failure_response_uniform_witness :
    (transcribe (sampleWorld audioNotFound (speechOK "testing 1 2 3"))
        (sampleRequest.FormValue "RecordingUrl")).1.2 =
        some "fetched with status: 404 Not Found" ∧
      (transcribe (sampleWorld audioOK (PostResult.response (Except.ok deniedData)))
        (sampleRequest.FormValue "RecordingUrl")).1.2 =
        some ("Speech API error has occurred! 403 PERMISSION_DENIED " ++
          "The request is missing a valid API key.") ∧
      (handler (sampleWorld audioNotFound (speechOK "testing 1 2 3")) ResponseWriter.new
        sampleRequest).w =
        (handler (sampleWorld audioOK (PostResult.response (Except.ok deniedData)))
          ResponseWriter.new sampleRequest).w :=
  ⟨rfl, rfl,
    (failure_response_uniform (sampleWorld audioNotFound (speechOK "testing 1 2 3"))
      (sampleWorld audioOK (PostResult.response (Except.ok deniedData)))
      sampleRequest sampleRequest _ _ (by decide) (by decide) rfl rfl).2.2⟩

/-- C9 as stated fails: when the audio fetch is answered 404 the response has
status 500 and its content type is "text/plain; charset=utf-8", which
`http.Error` has put in place of "text/xml". -/
theorem content_type_failure_counterexample :
    (handler (sampleWorld audioNotFound (speechOK "testing 1 2 3")) ResponseWriter.new
        sampleRequest).w.status = some StatusInternalServerError ∧
      (handler (sampleWorld audioNotFound (speechOK "testing 1 2 3")) ResponseWriter.new
        sampleRequest).w.GetHeader "Content-Type" = "text/plain; charset=utf-8" ∧
      (handler (sampleWorld audioNotFound (speechOK "testing 1 2 3")) ResponseWriter.new
        sampleRequest).w.GetHeader "Content-Type" ≠ "text/xml" := by
  decide

/-- C9, amended: every response of `handler` either has status 200, carries
the content type "text/xml" and is one of the three documents, or has status
500 and carries the content type "text/plain; charset=utf-8". -/
theorem content_type_by_status (world : World) (r : Request) :
    ((handler world ResponseWriter.new r).w.status = some StatusOK ∧
        (handler world ResponseWriter.new r).w.GetHeader "Content-Type" = "text/xml" ∧
        (handler world ResponseWriter.new r).w.body ∈ [greeting, okayPassword, badPassword]) ∨
      ((handler world ResponseWriter.new r).w.status = some StatusInternalServerError ∧
        (handler world ResponseWriter.new r).w.GetHeader "Content-Type" =
          "text/plain; charset=utf-8") := by
  by_cases hrec : r.FormValue "RecordingUrl" = ""
  · left
    have hw : (handler world ResponseWriter.new r).w =
        Fprint (ResponseWriter.new.SetHeader "Content-Type" "text/xml") greeting := by
      unfold handler
      simp only [hrec, if_true]
    rw [hw]
    exact ⟨rfl, by decide, List.mem_cons_self _ _⟩
  · rcases htr : transcribe world (r.FormValue "RecordingUrl") with ⟨⟨t, e⟩, c⟩
    cases e with
    | some err =>
      right
      rw [(handler_of_transcribe_error world r err hrec (by rw [htr])).1]
      exact ⟨rfl, by decide⟩
    | none =>
      left
      rw [(handler_of_transcribe_ok world r t hrec (by rw [htr])).1]
      by_cases ht : t = "testing 1 2 3"
      · rw [if_pos ht]
        exact ⟨rfl, by decide, by simp [Fprint, ResponseWriter.Write, ResponseWriter.WriteHeader,
          ResponseWriter.SetHeader, ResponseWriter.new]⟩
      · rw [if_neg ht]
        exact ⟨rfl, by decide, by simp [Fprint, ResponseWriter.Write, ResponseWriter.WriteHeader,
          ResponseWriter.SetHeader, ResponseWriter.new]⟩

/-- C10: after a successful audio fetch with body `b`, what `transcribe` posts
is the marshalled speech request whose encoding is "LINEAR16", whose sample
rate is 8000 and whose audio content is the standard base64 encoding of `b`; it
goes to `speechURL` as "application/json", right after the audio GET. -/
theorem posted_request_shape (world : World) (url status : String) (b jBytes : List Byte)
    (hget : world.Get url = GetResult.response StatusOK status (Except.ok b))
    (hmarshal : world.Marshal
      { Config := { Encoding := "LINEAR16", SampleRate := 8000 },
        Audio := { Content := EncodeToString b } } = Except.ok jBytes) :
    (transcribe world url).2 =
      [Call.get url, Call.post (speechURL world) "application/json" jBytes] := by
  have hfa := fetchAudio_ok world url status b hget
  rw [transcribe_of_fetchAudio_ok world url b (by rw [hfa])]
  simp only [fetchTranscription, hmarshal]
  split <;> first | rfl | (split <;> first | rfl | (split <;> first | rfl | (split <;> rfl)))

/-- C10, at a world that serves five bytes of audio. -/
theorem posted_request_shape_witness :
    sampleMarshal
        { Config := { Encoding := "LINEAR16", SampleRate := 8000 },
          Audio := { Content := "UklGRv8=" } } =
        Except.ok (("\x7b\"config\":\x7b\"encoding\":\"LINEAR16\",\"sampleRate\":8000\x7d," ++
          "\"audio\":\x7b\"content\":\"UklGRv8=\"\x7d\x7d").toList.map
            (fun ch => toByte ch.toNat)) ∧
      (transcribe (sampleWorld audioOK (speechOK "testing 1 2 3")) sampleUrl).2 =
        [Call.get sampleUrl,
          Call.post "https://speech.googleapis.com/v1beta1/speech:syncrecognize?key=KEY"
            "application/json"
            (("\x7b\"config\":\x7b\"encoding\":\"LINEAR16\",\"sampleRate\":8000\x7d," ++
              "\"audio\":\x7b\"content\":\"UklGRv8=\"\x7d\x7d").toList.map
                (fun ch => toByte ch.toNat))] :=
  ⟨rfl,
    posted_request_shape (sampleWorld audioOK (speechOK "testing 1 2 3")) sampleUrl "200 OK"
      sampleAudio _ rfl rfl⟩

end Voice
